import Mathlib

/-
  Verification development for the Tarificateur Sectorem service (src/main.py).

  Shallow embedding notes:
  - A parsed HTML document (BeautifulSoup tree) is a forest of `Tag` nodes; each
    node carries its tag name, its list of CSS classes, its rendered text
    (`element.text`), and its children.  `find` in document order is `findFirst`.
  - The network is an oracle `fetch : String → FetchResult` mapping the requested
    URL to either a response (status code plus parsed body), a timeout exception,
    or any other exception carrying its string details.
  - Python `float` values produced by `float(...)` on cleaned price strings are
    modelled as exact rationals (the decimal value denoted by the string).
  - Python string operations (`strip`, `lower`, `re` character classes) are
    modelled on ASCII, which covers every string the service manipulates.
-/

namespace Tarificateur

/-- One parsed HTML element: tag name, CSS classes, rendered text, children. -/
inductive Tag : Type where
  | mk (name : String) (classes : List String) (text : String) (children : List Tag)

/-- Tag name accessor. -/
def Tag.name : Tag → String
  | .mk n _ _ _ => n

/-- Class-list accessor. -/
def Tag.classes : Tag → List String
  | .mk _ c _ _ => c

/-- Rendered-text accessor. -/
def Tag.text : Tag → String
  | .mk _ _ t _ => t

/-- Children accessor. -/
def Tag.children : Tag → List Tag
  | .mk _ _ _ ch => ch

mutual

/-- First element of the subtree rooted at a node (the node included), in
document (pre-)order, satisfying `p`. -/
def findFirstTag (p : Tag → Bool) : Tag → Option Tag
  | .mk n c tx ch =>
    if p (.mk n c tx ch) then some (.mk n c tx ch) else findFirst p ch

/-- First element of the forest, in document (pre-)order, satisfying `p`;
models BeautifulSoup `find` over the descendants of a node. -/
def findFirst (p : Tag → Bool) : List Tag → Option Tag
  | [] => none
  | t :: ts =>
    match findFirstTag p t with
    | some r => some r
    | none => findFirst p ts

end

/-- Characters Python `str.strip()` removes (ASCII whitespace). -/
def pyIsSpace (c : Char) : Bool :=
  c == ' ' || c == '\t' || c == '\n' || c == '\r' || c == '\x0b' || c == '\x0c'

/-- Python `str.strip()`. -/
def pyStrip (s : String) : String :=
  String.mk (((s.data.dropWhile pyIsSpace).reverse.dropWhile pyIsSpace).reverse)

/-- Python `str.lower()` (ASCII). -/
def pyLower (s : String) : String :=
  String.mk (s.data.map Char.toLower)

/-- Does `needle` occur as a contiguous substring of `hay`?  Models an
unanchored `re.search` for a literal pattern. -/
def occursIn (needle : List Char) : List Char → Bool
  | [] => needle.isEmpty
  | c :: t => needle.isPrefixOf (c :: t) || occursIn needle t

/-- Does the (case-sensitive) regex `product.*title` match somewhere in `l`?
`.*` does not cross a newline. -/
def productThenTitle : List Char → Bool
  | [] => false
  | c :: t =>
    ("product".data.isPrefixOf (c :: t) &&
      occursIn "title".data (((c :: t).drop 7).takeWhile (fun d => d ≠ '\n'))) ||
    productThenTitle t

/-- The class test of `re.compile('product.*title|name')` on one class token. -/
def nameClassMatch (cls : String) : Bool :=
  productThenTitle cls.data || occursIn "name".data cls.data

/-- The class test of `re.compile('price')` on one class token. -/
def priceClassMatch (cls : String) : Bool :=
  occursIn "price".data cls.data

/-- The class test of `re.compile('stock|availability')` on one class token. -/
def stockClassMatch (cls : String) : Bool :=
  occursIn "stock".data cls.data || occursIn "availability".data cls.data

/-- BeautifulSoup `class_="cls"`: the element carries exactly this class token. -/
def classHas (cls : String) (t : Tag) : Bool :=
  t.classes.contains cls

/-- BeautifulSoup `class_=re.compile(...)`: some class token matches the
regex, or, when no individual token does, the regex matches the space-joined
class string (the multi-valued-attribute fallback of `SoupStrainer._matches`);
an element without a class attribute never matches. -/
def classMatches (f : String → Bool) (t : Tag) : Bool :=
  match t.classes with
  | [] => false
  | cs => cs.any f || f (String.intercalate " " cs)

/-- Value of a list of decimal digit characters. -/
def digitsToNat (l : List Char) : Nat :=
  l.foldl (fun a c => 10 * a + (c.toNat - 48)) 0

/-- Python `float(s)` restricted to the strings the scraper can produce
(digits and periods): succeeds on `d*[.d*]` containing at least one digit,
fails (ValueError) otherwise.  The resulting value is the exact decimal. -/
def pyFloat (s : String) : Option ℚ :=
  if s.data.all (fun c => c.isDigit || c == '.') && s.data.any Char.isDigit then
    match s.data.splitOn '.' with
    | [d] => some (digitsToNat d)
    | [a, b] => some ((digitsToNat a : ℚ) + (digitsToNat b : ℚ) / (10 : ℚ) ^ b.length)
    | _ => none
  else none

/-- Keep digits, commas and periods: the character class `[\d,.]` of
`re.sub(r'[^\d,.]', '', ...)`. -/
def keepPriceChar (c : Char) : Bool :=
  c.isDigit || c == ',' || c == '.'

/-- `re.sub(r'[^\d,.]', '', s).replace(',', '.')`. -/
def cleanPrice (s : String) : String :=
  String.mk ((s.data.filter keepPriceChar).map (fun c => if c == ',' then '.' else c))

/-- The price normalizer both adapters apply to a raw price string:
strip to `[\d,.]`, swap commas for periods, parse with `float`. -/
def normalizePrice (raw : String) : Option ℚ :=
  pyFloat (cleanPrice raw)

/-- Outcome of the outbound HTTP GET: a response (status code and parsed HTML
body), a `httpx.TimeoutException`, or any other exception with its details. -/
inductive FetchResult : Type where
  | resp (status : Nat) (doc : List Tag)
  | timeout
  | exc (details : String)

/-- The request body of `POST /api/recherche` (pydantic `ProduitRequest`). -/
structure ProduitRequest where
  reference : String
  fournisseur : String

/-- The service response record (pydantic `ProduitResponse`); optional fields
default to `None`. -/
structure ProduitResponse where
  reference : String
  fournisseur : String
  prix : Option ℚ := none
  designation : Option String := none
  disponibilite : Option String := none
  erreur : Option String := none
deriving DecidableEq

/-- FastAPI `HTTPException(status_code, detail)`. -/
structure HTTPError where
  status_code : Nat
  detail : String
deriving DecidableEq

/-- Search URL built by `scrape_luxior`: the reference is interpolated raw
into the f-string, with no URL escaping. -/
def luxiorSearchURL (reference : String) : String :=
  "https://www.luxior.fr/catalogsearch/result/?q=" ++ reference

/-- Search URL built by `scrape_ami3f`: raw f-string interpolation. -/
def ami3fSearchURL (reference : String) : String :=
  "https://www.ami3f.com/recherche?q=" ++ reference

/-- Product container lookup of `scrape_luxior`:
`soup.find('div', class_='product-item-info')`. -/
def luxiorContainer (doc : List Tag) : Option Tag :=
  findFirst (fun t => t.name == "div" && classHas "product-item-info" t) doc

/-- Designation extraction of `scrape_luxior` inside the container:
`find('a', class_='product-item-link')`, text stripped, default "N/A". -/
def luxiorDesignation (item : Tag) : String :=
  match findFirst (fun t => t.name == "a" && classHas "product-item-link" t) item.children with
  | some e => pyStrip e.text
  | none => "N/A"

/-- Price element lookup of `scrape_luxior`: `find('span', class_='price')`. -/
def luxiorPriceElement (item : Tag) : Option Tag :=
  findFirst (fun t => t.name == "span" && classHas "price" t) item.children

/-- Price extraction of `scrape_luxior`: stripped text of the price element,
skipped when falsy (empty), cleaned and parsed; `ValueError` leaves `None`. -/
def luxiorPrix (item : Tag) : Option ℚ :=
  match luxiorPriceElement item with
  | some e =>
    let t := pyStrip e.text
    if t = "" then none else pyFloat (cleanPrice t)
  | none => none

/-- Availability extraction of `scrape_luxior`:
`find('div', class_='stock')`, text stripped, default "À vérifier". -/
def luxiorDisponibilite (item : Tag) : String :=
  match findFirst (fun t => t.name == "div" && classHas "stock" t) item.children with
  | some e => pyStrip e.text
  | none => "À vérifier"

/-- The success record `scrape_luxior` assembles from a found container. -/
def luxiorExtract (reference : String) (item : Tag) : ProduitResponse :=
  { reference
    fournisseur := "luxior"
    prix := luxiorPrix item
    designation := some (luxiorDesignation item)
    disponibilite := some (luxiorDisponibilite item) }

/-- The adapter `scrape_luxior` of src/main.py, over the network oracle. -/
def scrape_luxior (reference : String) (fetch : String → FetchResult) : ProduitResponse :=
  match fetch (luxiorSearchURL reference) with
  | .timeout =>
    { reference, fournisseur := "luxior",
      erreur := some "Timeout - Le serveur Luxior ne répond pas" }
  | .exc d =>
    { reference, fournisseur := "luxior", erreur := some ("Erreur: " ++ d) }
  | .resp status doc =>
    if status ≠ 200 then
      { reference, fournisseur := "luxior",
        erreur := some ("Erreur HTTP " ++ toString status) }
    else
      match luxiorContainer doc with
      | none =>
        { reference, fournisseur := "luxior", erreur := some "Produit non trouvé" }
      | some item => luxiorExtract reference item

/-- Primary product container lookup of `scrape_ami3f`:
`soup.find('div', class_='product-card')`. -/
def ami3fPrimaryContainer (doc : List Tag) : Option Tag :=
  findFirst (fun t => t.name == "div" && classHas "product-card" t) doc

/-- Fallback container lookup of `scrape_ami3f`:
`soup.find('article', class_='product')`. -/
def ami3fFallbackContainer (doc : List Tag) : Option Tag :=
  findFirst (fun t => t.name == "article" && classHas "product" t) doc

/-- Container selection of `scrape_ami3f`: primary selector first, then the
fallback. -/
def ami3fContainer (doc : List Tag) : Option Tag :=
  match ami3fPrimaryContainer doc with
  | some c => some c
  | none => ami3fFallbackContainer doc

/-- Designation extraction of `scrape_ami3f` inside the container:
`find(['h2', 'h3', 'a'], class_=re.compile('product.*title|name'))`,
text stripped, default "N/A". -/
def ami3fDesignation (item : Tag) : String :=
  match findFirst (fun t =>
      (t.name == "h2" || t.name == "h3" || t.name == "a") &&
        classMatches nameClassMatch t) item.children with
  | some e => pyStrip e.text
  | none => "N/A"

/-- Price element lookup of `scrape_ami3f`:
`find(['span', 'div'], class_=re.compile('price'))`. -/
def ami3fPriceElement (item : Tag) : Option Tag :=
  findFirst (fun t =>
    (t.name == "span" || t.name == "div") && classMatches priceClassMatch t) item.children

/-- Price extraction of `scrape_ami3f`. -/
def ami3fPrix (item : Tag) : Option ℚ :=
  match ami3fPriceElement item with
  | some e =>
    let t := pyStrip e.text
    if t = "" then none else pyFloat (cleanPrice t)
  | none => none

/-- Availability extraction of `scrape_ami3f`:
`find(['span', 'div'], class_=re.compile('stock|availability'))`,
text stripped, default "À vérifier". -/
def ami3fDisponibilite (item : Tag) : String :=
  match findFirst (fun t =>
      (t.name == "span" || t.name == "div") && classMatches stockClassMatch t) item.children with
  | some e => pyStrip e.text
  | none => "À vérifier"

/-- The success record `scrape_ami3f` assembles from a found container. -/
def ami3fExtract (reference : String) (item : Tag) : ProduitResponse :=
  { reference
    fournisseur := "ami3f"
    prix := ami3fPrix item
    designation := some (ami3fDesignation item)
    disponibilite := some (ami3fDisponibilite item) }

/-- The adapter `scrape_ami3f` of src/main.py, over the network oracle. -/
def scrape_ami3f (reference : String) (fetch : String → FetchResult) : ProduitResponse :=
  match fetch (ami3fSearchURL reference) with
  | .timeout =>
    { reference, fournisseur := "ami3f",
      erreur := some "Timeout - Le serveur AMI 3F ne répond pas" }
  | .exc d =>
    { reference, fournisseur := "ami3f", erreur := some ("Erreur: " ++ d) }
  | .resp status doc =>
    if status ≠ 200 then
      { reference, fournisseur := "ami3f",
        erreur := some ("Erreur HTTP " ++ toString status) }
    else
      match ami3fContainer doc with
      | none =>
        { reference, fournisseur := "ami3f", erreur := some "Produit non trouvé" }
      | some item => ami3fExtract reference item

/-- The dispatcher `recherche_produit` (`POST /api/recherche`): validates the
request and delegates to the matching adapter; `HTTPException` is `.error`. -/
def recherche_produit (produit : ProduitRequest) (fetch : String → FetchResult) :
    Except HTTPError ProduitResponse :=
  if pyStrip produit.reference = "" then
    .error ⟨400, "La référence est obligatoire"⟩
  else
    let fournisseur := pyLower produit.fournisseur
    if fournisseur = "luxior" then
      .ok (scrape_luxior produit.reference fetch)
    else if fournisseur = "ami3f" then
      .ok (scrape_ami3f produit.reference fetch)
    else
      .error ⟨400, "Fournisseur non supporté. Utilisez \x27luxior\x27 ou \x27ami3f\x27"⟩

/-- Payload exclusivity for a response record: an error record populates none
of price, designation, availability; a success record (designation present)
carries no error. -/
def PayloadExclusive (r : ProduitResponse) : Prop :=
  (r.erreur = none ∨ (r.prix = none ∧ r.designation = none ∧ r.disponibilite = none)) ∧
  (r.designation = none ∨ r.erreur = none)

/-- Helper: the empty string normalizes to an absent price. -/
theorem normalizePrice_empty : normalizePrice "" = none := rfl

/-- Helper: when the luxior price element exists, the extracted price is
exactly the normalizer applied to its stripped text. -/
theorem luxiorPrix_eq_normalize (item e : Tag) (h : luxiorPriceElement item = some e) :
    luxiorPrix item = normalizePrice (pyStrip e.text) := by
  unfold luxiorPrix
  rw [h]
  by_cases hc : pyStrip e.text = ""
  · simp [hc, normalizePrice_empty]
  · simp only [if_neg hc]
    rfl

/-- Helper: when the ami3f price element exists, the extracted price is
exactly the normalizer applied to its stripped text. -/
theorem ami3fPrix_eq_normalize (item e : Tag) (h : ami3fPriceElement item = some e) :
    ami3fPrix item = normalizePrice (pyStrip e.text) := by
  unfold ami3fPrix
  rw [h]
  by_cases hc : pyStrip e.text = ""
  · simp [hc, normalizePrice_empty]
  · simp only [if_neg hc]
    rfl

/-- C1: the claim's literal English failure message does not occur: on a
timeout, scrape_luxior reports the French message of main.py, not
"Timeout: the supplier server is not responding". -/
theorem c1_counterexample :
    (scrape_luxior "REF" (fun _ => .timeout)).erreur =
      some "Timeout - Le serveur Luxior ne répond pas" ∧
    (scrape_luxior "REF" (fun _ => .timeout)).erreur ≠
      some "Timeout: the supplier server is not responding" := by
  constructor
  · rfl
  · decide

/-- C1 (amended): for every reference, each adapter maps a timeout to its
supplier-specific French timeout record and any other exception with details
`d` to the record with error "Erreur: " ++ d; in both cases a full record is
returned (no exception propagates) with every payload field absent. -/
theorem c1_failure_semantics (reference d : String) (ft fe : String → FetchResult)
    (hlt : ft (luxiorSearchURL reference) = .timeout)
    (hat : ft (ami3fSearchURL reference) = .timeout)
    (hle : fe (luxiorSearchURL reference) = .exc d)
    (hae : fe (ami3fSearchURL reference) = .exc d) :
    scrape_luxior reference ft =
      { reference, fournisseur := "luxior",
        erreur := some "Timeout - Le serveur Luxior ne répond pas" } ∧
    scrape_ami3f reference ft =
      { reference, fournisseur := "ami3f",
        erreur := some "Timeout - Le serveur AMI 3F ne répond pas" } ∧
    scrape_luxior reference fe =
      { reference, fournisseur := "luxior", erreur := some ("Erreur: " ++ d) } ∧
    scrape_ami3f reference fe =
      { reference, fournisseur := "ami3f", erreur := some ("Erreur: " ++ d) } := by
  refine ⟨?_, ?_, ?_, ?_⟩ <;>
    simp only [scrape_luxior, scrape_ami3f, hlt, hat, hle, hae]

/-- C1 witness: concrete timeout and exception behaviours of both adapters. -/
theorem c1_failure_semantics_witness :
    scrape_luxior "R" (fun _ => .timeout) =
      { reference := "R", fournisseur := "luxior",
        erreur := some "Timeout - Le serveur Luxior ne répond pas" } ∧
    scrape_ami3f "R" (fun _ => .timeout) =
      { reference := "R", fournisseur := "ami3f",
        erreur := some "Timeout - Le serveur AMI 3F ne répond pas" } ∧
    scrape_luxior "R" (fun _ => .exc "boom") =
      { reference := "R", fournisseur := "luxior", erreur := some ("Erreur: " ++ "boom") } ∧
    scrape_ami3f "R" (fun _ => .exc "boom") =
      { reference := "R", fournisseur := "ami3f", erreur := some ("Erreur: " ++ "boom") } :=
  c1_failure_semantics "R" "boom" (fun _ => .timeout) (fun _ => .exc "boom") rfl rfl rfl rfl

/-- C3: at upstream status 404 the error string is the French "Erreur HTTP 404"
of main.py, not the claim's "HTTP error 404". -/
theorem c3_counterexample :
    (scrape_luxior "REF" (fun _ => .resp 404 [])).erreur = some "Erreur HTTP 404" ∧
    (scrape_luxior "REF" (fun _ => .resp 404 [])).erreur ≠ some "HTTP error 404" ∧
    (scrape_ami3f "REF" (fun _ => .resp 404 [])).erreur = some "Erreur HTTP 404" ∧
    (scrape_ami3f "REF" (fun _ => .resp 404 [])).erreur ≠ some "HTTP error 404" := by
  refine ⟨rfl, by decide, rfl, by decide⟩

/-- C3 (amended): for every upstream response whose status differs from 200,
each adapter returns the record whose error is "Erreur HTTP <status>" and
whose price, designation and availability are all absent. -/
theorem c3_http_error (reference : String) (status : Nat) (doc : List Tag)
    (f : String → FetchResult)
    (hl : f (luxiorSearchURL reference) = .resp status doc)
    (ha : f (ami3fSearchURL reference) = .resp status doc)
    (hs : status ≠ 200) :
    scrape_luxior reference f =
      { reference, fournisseur := "luxior",
        erreur := some ("Erreur HTTP " ++ toString status) } ∧
    scrape_ami3f reference f =
      { reference, fournisseur := "ami3f",
        erreur := some ("Erreur HTTP " ++ toString status) } := by
  constructor <;> simp only [scrape_luxior, scrape_ami3f, hl, ha, if_pos hs]

/-- C3 witness: a 404 response yields the "Erreur HTTP 404" record for both
adapters. -/
theorem c3_http_error_witness :
    scrape_luxior "R" (fun _ => .resp 404 []) =
      { reference := "R", fournisseur := "luxior",
        erreur := some ("Erreur HTTP " ++ toString 404) } ∧
    scrape_ami3f "R" (fun _ => .resp 404 []) =
      { reference := "R", fournisseur := "ami3f",
        erreur := some ("Erreur HTTP " ++ toString 404) } :=
  c3_http_error "R" 404 [] (fun _ => .resp 404 []) rfl rfl (by decide)

/-- C4: when no container matches, the error string is the French
"Produit non trouvé" of main.py, not the claim's "Product not found". -/
theorem c4_counterexample :
    (scrape_ami3f "REF" (fun _ => .resp 200 [])).erreur = some "Produit non trouvé" ∧
    (scrape_ami3f "REF" (fun _ => .resp 200 [])).erreur ≠ some "Product not found" ∧
    (scrape_luxior "REF" (fun _ => .resp 200 [])).erreur = some "Produit non trouvé" ∧
    (scrape_luxior "REF" (fun _ => .resp 200 [])).erreur ≠ some "Product not found" := by
  refine ⟨rfl, by decide, rfl, by decide⟩

/-- C4 (amended): on a status-200 body in which no product container matches,
each adapter returns the record with error "Produit non trouvé"; scrape_ami3f
first tries `div` with class "product-card" and only then `article` with class
"product", extracting from the first container that matches. -/
theorem c4_not_found (reference : String) (doc : List Tag) (f : String → FetchResult)
    (hl : f (luxiorSearchURL reference) = .resp 200 doc)
    (ha : f (ami3fSearchURL reference) = .resp 200 doc) :
    (luxiorContainer doc = none →
      scrape_luxior reference f =
        { reference, fournisseur := "luxior", erreur := some "Produit non trouvé" }) ∧
    (ami3fPrimaryContainer doc = none → ami3fFallbackContainer doc = none →
      scrape_ami3f reference f =
        { reference, fournisseur := "ami3f", erreur := some "Produit non trouvé" }) ∧
    (∀ c, ami3fPrimaryContainer doc = some c →
      scrape_ami3f reference f = ami3fExtract reference c) ∧
    (∀ c, ami3fPrimaryContainer doc = none → ami3fFallbackContainer doc = some c →
      scrape_ami3f reference f = ami3fExtract reference c) := by
  refine ⟨?_, ?_, ?_, ?_⟩ <;> intros <;>
    simp_all [scrape_luxior, scrape_ami3f, ami3fContainer]

/-- C4 witness: an empty body yields "Produit non trouvé" for both adapters,
and a body holding only the fallback `article.product` container is extracted
from that container. -/
theorem c4_not_found_witness :
    scrape_luxior "R" (fun _ => .resp 200 []) =
      { reference := "R", fournisseur := "luxior", erreur := some "Produit non trouvé" } ∧
    scrape_ami3f "R" (fun _ => .resp 200 []) =
      { reference := "R", fournisseur := "ami3f", erreur := some "Produit non trouvé" } ∧
    scrape_ami3f "R" (fun _ => .resp 200 [Tag.mk "article" ["product"] "" []]) =
      ami3fExtract "R" (Tag.mk "article" ["product"] "" []) :=
  ⟨(c4_not_found "R" [] (fun _ => .resp 200 []) rfl rfl).1 rfl,
   (c4_not_found "R" [] (fun _ => .resp 200 []) rfl rfl).2.1 rfl rfl,
   (c4_not_found "R" [Tag.mk "article" ["product"] "" []]
      (fun _ => .resp 200 [Tag.mk "article" ["product"] "" []]) rfl rfl).2.2.2
      (Tag.mk "article" ["product"] "" []) rfl rfl⟩

/-- C7: the reference is interpolated raw, not URL-escaped: for the reference
"a b" the constructed URL keeps the literal space (and the adapter requests
exactly that raw URL), instead of the percent-encoded "a%20b" the claim
requires. -/
theorem c7_counterexample :
    luxiorSearchURL "a b" = "https://www.luxior.fr/catalogsearch/result/?q=a b" ∧
    luxiorSearchURL "a b" ≠ "https://www.luxior.fr/catalogsearch/result/?q=a%20b" ∧
    ami3fSearchURL "a&b" = "https://www.ami3f.com/recherche?q=a&b" ∧
    ami3fSearchURL "a&b" ≠ "https://www.ami3f.com/recherche?q=a%26b" ∧
    (scrape_luxior "a b" (fun u =>
        if u = "https://www.luxior.fr/catalogsearch/result/?q=a b" then .resp 404 []
        else .timeout)).erreur = some "Erreur HTTP 404" := by
  refine ⟨rfl, by decide, rfl, by decide, by decide⟩

/-- C7 (amended): each adapter embeds the reference unescaped into its search
endpoint template by plain string interpolation, and that URL is the only
point at which the adapter consults the network. -/
theorem c7_url_construction (reference : String) (f g : String → FetchResult)
    (hl : f (luxiorSearchURL reference) = g (luxiorSearchURL reference))
    (ha : f (ami3fSearchURL reference) = g (ami3fSearchURL reference)) :
    luxiorSearchURL reference = "https://www.luxior.fr/catalogsearch/result/?q=" ++ reference ∧
    ami3fSearchURL reference = "https://www.ami3f.com/recherche?q=" ++ reference ∧
    scrape_luxior reference f = scrape_luxior reference g ∧
    scrape_ami3f reference f = scrape_ami3f reference g := by
  refine ⟨rfl, rfl, ?_, ?_⟩
  · unfold scrape_luxior
    rw [hl]
  · unfold scrape_ami3f
    rw [ha]

/-- C7 witness: two oracles agreeing on the raw search URLs drive the adapters
to the same records. -/
theorem c7_url_construction_witness :
    luxiorSearchURL "a b" = "https://www.luxior.fr/catalogsearch/result/?q=" ++ "a b" ∧
    ami3fSearchURL "a b" = "https://www.ami3f.com/recherche?q=" ++ "a b" ∧
    scrape_luxior "a b" (fun _ => .timeout) = scrape_luxior "a b" (fun _ => .timeout) ∧
    scrape_ami3f "a b" (fun _ => .timeout) = scrape_ami3f "a b" (fun _ => .timeout) :=
  c7_url_construction "a b" (fun _ => .timeout) (fun _ => .timeout) rfl rfl

/-- C2: the dispatcher returns a 400 client error exactly when the stripped
reference is empty (checked before the supplier is inspected) or when the
lowercased supplier is neither "luxior" nor "ami3f"; otherwise it returns the
matching adapter record unchanged, and every error it raises carries
status 400. -/
theorem c2_dispatcher (p : ProduitRequest) (f : String → FetchResult) :
    (pyStrip p.reference = "" →
      recherche_produit p f = .error ⟨400, "La référence est obligatoire"⟩) ∧
    (pyStrip p.reference ≠ "" → pyLower p.fournisseur = "luxior" →
      recherche_produit p f = .ok (scrape_luxior p.reference f)) ∧
    (pyStrip p.reference ≠ "" → pyLower p.fournisseur = "ami3f" →
      recherche_produit p f = .ok (scrape_ami3f p.reference f)) ∧
    (pyStrip p.reference ≠ "" → pyLower p.fournisseur ≠ "luxior" →
      pyLower p.fournisseur ≠ "ami3f" →
      recherche_produit p f =
        .error ⟨400, "Fournisseur non supporté. Utilisez \x27luxior\x27 ou \x27ami3f\x27"⟩) ∧
    (∀ e, recherche_produit p f = .error e → e.status_code = 400) := by
  simp only [recherche_produit]
  refine ⟨?_, ?_, ?_, ?_, ?_⟩
  · intro h
    rw [if_pos h]
  · intro h1 h2
    rw [if_neg h1, if_pos h2]
  · intro h1 h2
    have hne : pyLower p.fournisseur ≠ "luxior" := by
      rw [h2]
      decide
    rw [if_neg h1, if_neg hne, if_pos h2]
  · intro h1 h2 h3
    rw [if_neg h1, if_neg h2, if_neg h3]
  · intro e he
    split at he
    · injection he with h
      rw [← h]
    · split at he
      · exact absurd he (by simp)
      · split at he
        · exact absurd he (by simp)
        · injection he with h
          rw [← h]

/-- C2 witness: an all-whitespace reference is rejected with 400 whatever the
supplier; upper-case supplier spellings are accepted; an unknown supplier is
rejected with 400; accepted requests return the adapter record unchanged. -/
theorem c2_dispatcher_witness :
    recherche_produit ⟨" ", "autre"⟩ (fun _ => .timeout) =
      .error ⟨400, "La référence est obligatoire"⟩ ∧
    recherche_produit ⟨"R", "LuXiOr"⟩ (fun _ => .timeout) =
      .ok (scrape_luxior "R" (fun _ => .timeout)) ∧
    recherche_produit ⟨"R", "AMI3F"⟩ (fun _ => .timeout) =
      .ok (scrape_ami3f "R" (fun _ => .timeout)) ∧
    recherche_produit ⟨"R", "amazon"⟩ (fun _ => .timeout) =
      .error ⟨400, "Fournisseur non supporté. Utilisez \x27luxior\x27 ou \x27ami3f\x27"⟩ :=
  ⟨(c2_dispatcher ⟨" ", "autre"⟩ (fun _ => .timeout)).1 (by decide),
   (c2_dispatcher ⟨"R", "LuXiOr"⟩ (fun _ => .timeout)).2.1 (by decide) (by decide),
   (c2_dispatcher ⟨"R", "AMI3F"⟩ (fun _ => .timeout)).2.2.1 (by decide) (by decide),
   (c2_dispatcher ⟨"R", "amazon"⟩ (fun _ => .timeout)).2.2.2.1
     (by decide) (by decide) (by decide)⟩

/-- C5: the price normalizer keeps only digits, commas and periods, swaps
commas for periods, and parses the result as a decimal, so "1 234,56 €"
normalizes to 1234.56; each adapter sets its price field to exactly the
normalizer applied to the stripped text of the found price element. -/
theorem c5_price_normalizer (reference : String) (docL docA : List Tag)
    (cl ca el ea : Tag) (f : String → FetchResult)
    (hfl : f (luxiorSearchURL reference) = .resp 200 docL)
    (hfa : f (ami3fSearchURL reference) = .resp 200 docA)
    (hcl : luxiorContainer docL = some cl)
    (hca : ami3fContainer docA = some ca)
    (hel : luxiorPriceElement cl = some el)
    (hea : ami3fPriceElement ca = some ea) :
    normalizePrice "1 234,56 €" = some (123456 / 100 : ℚ) ∧
    (scrape_luxior reference f).prix = normalizePrice (pyStrip el.text) ∧
    (scrape_ami3f reference f).prix = normalizePrice (pyStrip ea.text) := by
  have hval : normalizePrice "1 234,56 €" = some (123456 / 100 : ℚ) := by
    have h : normalizePrice "1 234,56 €" = some ((1234 : ℚ) + (56 : ℚ) / 10 ^ 2) := rfl
    rw [h]
    norm_num
  refine ⟨hval, ?_, ?_⟩
  · simp only [scrape_luxior, hfl, hcl]
    simp [luxiorExtract, luxiorPrix_eq_normalize cl el hel]
  · simp only [scrape_ami3f, hfa, hca]
    simp [ami3fExtract, ami3fPrix_eq_normalize ca ea hea]

/-- C5 witness: a concrete page whose price elements read "1 234,56 €" makes
both adapters report the normalized price. -/
theorem c5_price_normalizer_witness :
    normalizePrice "1 234,56 €" = some (123456 / 100 : ℚ) ∧
    (scrape_luxior "R" (fun _ => .resp 200
        [Tag.mk "div" ["product-item-info"] "" [Tag.mk "span" ["price"] "1 234,56 €" []],
         Tag.mk "div" ["product-card"] "" [Tag.mk "span" ["price"] "1 234,56 €" []]])).prix =
      normalizePrice (pyStrip "1 234,56 €") ∧
    (scrape_ami3f "R" (fun _ => .resp 200
        [Tag.mk "div" ["product-item-info"] "" [Tag.mk "span" ["price"] "1 234,56 €" []],
         Tag.mk "div" ["product-card"] "" [Tag.mk "span" ["price"] "1 234,56 €" []]])).prix =
      normalizePrice (pyStrip "1 234,56 €") :=
  c5_price_normalizer "R"
    [Tag.mk "div" ["product-item-info"] "" [Tag.mk "span" ["price"] "1 234,56 €" []],
     Tag.mk "div" ["product-card"] "" [Tag.mk "span" ["price"] "1 234,56 €" []]]
    [Tag.mk "div" ["product-item-info"] "" [Tag.mk "span" ["price"] "1 234,56 €" []],
     Tag.mk "div" ["product-card"] "" [Tag.mk "span" ["price"] "1 234,56 €" []]]
    (Tag.mk "div" ["product-item-info"] "" [Tag.mk "span" ["price"] "1 234,56 €" []])
    (Tag.mk "div" ["product-card"] "" [Tag.mk "span" ["price"] "1 234,56 €" []])
    (Tag.mk "span" ["price"] "1 234,56 €" [])
    (Tag.mk "span" ["price"] "1 234,56 €" [])
    (fun _ => .resp 200
      [Tag.mk "div" ["product-item-info"] "" [Tag.mk "span" ["price"] "1 234,56 €" []],
       Tag.mk "div" ["product-card"] "" [Tag.mk "span" ["price"] "1 234,56 €" []]])
    rfl rfl rfl rfl rfl rfl

/-- C6: when price normalization fails on the found price element, the record
keeps an absent price yet stays a success: no error, and the designation and
availability extractions are carried unchanged. -/
theorem c6_price_parse_failure (reference : String) (docL docA : List Tag)
    (cl ca el ea : Tag) (f : String → FetchResult)
    (hfl : f (luxiorSearchURL reference) = .resp 200 docL)
    (hfa : f (ami3fSearchURL reference) = .resp 200 docA)
    (hcl : luxiorContainer docL = some cl)
    (hca : ami3fContainer docA = some ca)
    (hel : luxiorPriceElement cl = some el)
    (hea : ami3fPriceElement ca = some ea)
    (hnl : normalizePrice (pyStrip el.text) = none)
    (hna : normalizePrice (pyStrip ea.text) = none) :
    scrape_luxior reference f =
      { reference, fournisseur := "luxior", prix := none,
        designation := some (luxiorDesignation cl),
        disponibilite := some (luxiorDisponibilite cl), erreur := none } ∧
    scrape_ami3f reference f =
      { reference, fournisseur := "ami3f", prix := none,
        designation := some (ami3fDesignation ca),
        disponibilite := some (ami3fDisponibilite ca), erreur := none } := by
  constructor
  · simp [scrape_luxior, hfl, hcl, luxiorExtract,
      luxiorPrix_eq_normalize cl el hel, hnl]
  · simp [scrape_ami3f, hfa, hca, ami3fExtract,
      ami3fPrix_eq_normalize ca ea hea, hna]

/-- C6 witness: a page whose price element reads "Contact us" still yields a
success record with designation and availability populated and no error. -/
theorem c6_price_parse_failure_witness :
    scrape_luxior "R" (fun _ => .resp 200
        [Tag.mk "div" ["product-item-info"] ""
          [Tag.mk "a" ["product-item-link"] " Widget X " [],
           Tag.mk "span" ["price"] "Contact us" [],
           Tag.mk "div" ["stock"] "En stock" []],
         Tag.mk "div" ["product-card"] ""
          [Tag.mk "a" ["product-name"] " Widget Y " [],
           Tag.mk "span" ["price"] "Contact us" [],
           Tag.mk "span" ["stock"] "Dispo" []]]) =
      { reference := "R", fournisseur := "luxior", prix := none,
        designation := some "Widget X", disponibilite := some "En stock",
        erreur := none } ∧
    scrape_ami3f "R" (fun _ => .resp 200
        [Tag.mk "div" ["product-item-info"] ""
          [Tag.mk "a" ["product-item-link"] " Widget X " [],
           Tag.mk "span" ["price"] "Contact us" [],
           Tag.mk "div" ["stock"] "En stock" []],
         Tag.mk "div" ["product-card"] ""
          [Tag.mk "a" ["product-name"] " Widget Y " [],
           Tag.mk "span" ["price"] "Contact us" [],
           Tag.mk "span" ["stock"] "Dispo" []]]) =
      { reference := "R", fournisseur := "ami3f", prix := none,
        designation := some "Widget Y", disponibilite := some "Dispo",
        erreur := none } :=
  c6_price_parse_failure "R"
    [Tag.mk "div" ["product-item-info"] ""
      [Tag.mk "a" ["product-item-link"] " Widget X " [],
       Tag.mk "span" ["price"] "Contact us" [],
       Tag.mk "div" ["stock"] "En stock" []],
     Tag.mk "div" ["product-card"] ""
      [Tag.mk "a" ["product-name"] " Widget Y " [],
       Tag.mk "span" ["price"] "Contact us" [],
       Tag.mk "span" ["stock"] "Dispo" []]]
    [Tag.mk "div" ["product-item-info"] ""
      [Tag.mk "a" ["product-item-link"] " Widget X " [],
       Tag.mk "span" ["price"] "Contact us" [],
       Tag.mk "div" ["stock"] "En stock" []],
     Tag.mk "div" ["product-card"] ""
      [Tag.mk "a" ["product-name"] " Widget Y " [],
       Tag.mk "span" ["price"] "Contact us" [],
       Tag.mk "span" ["stock"] "Dispo" []]]
    (Tag.mk "div" ["product-item-info"] ""
      [Tag.mk "a" ["product-item-link"] " Widget X " [],
       Tag.mk "span" ["price"] "Contact us" [],
       Tag.mk "div" ["stock"] "En stock" []])
    (Tag.mk "div" ["product-card"] ""
      [Tag.mk "a" ["product-name"] " Widget Y " [],
       Tag.mk "span" ["price"] "Contact us" [],
       Tag.mk "span" ["stock"] "Dispo" []])
    (Tag.mk "span" ["price"] "Contact us" [])
    (Tag.mk "span" ["price"] "Contact us" [])
    (fun _ => .resp 200
      [Tag.mk "div" ["product-item-info"] ""
        [Tag.mk "a" ["product-item-link"] " Widget X " [],
         Tag.mk "span" ["price"] "Contact us" [],
         Tag.mk "div" ["stock"] "En stock" []],
       Tag.mk "div" ["product-card"] ""
        [Tag.mk "a" ["product-name"] " Widget Y " [],
         Tag.mk "span" ["price"] "Contact us" [],
         Tag.mk "span" ["stock"] "Dispo" []]])
    rfl rfl rfl rfl rfl rfl rfl rfl

/-- C8: the ami3f class test is the case-sensitive regex
`product.*title|name`, not a case-insensitive "title"-or-"name" substring: an
h2 of class "title" (and an h3 of class "Name") is skipped and the designation
falls back to "N/A" instead of the claimed element text. -/
theorem c8_counterexample :
    (scrape_ami3f "R" (fun _ => .resp 200
        [Tag.mk "article" ["product"] ""
          [Tag.mk "h2" ["title"] "Widget" [],
           Tag.mk "h3" ["Name"] "Gadget" []]])).designation = some "N/A" ∧
    (scrape_ami3f "R" (fun _ => .resp 200
        [Tag.mk "article" ["product"] ""
          [Tag.mk "h2" ["title"] "Widget" [],
           Tag.mk "h3" ["Name"] "Gadget" []]])).designation ≠ some "Widget" := by
  constructor
  · rfl
  · decide

/-- C8 (amended): inside a found container the designation is the stripped
text of the first matching descendant — for scrape_ami3f an h2/h3/a element
whose class attribute matches the case-sensitive regex
`product.*title|name`, the regex being tried against each class token and,
when no token matches, against the space-joined class string (so
class="product main-title" is selected); a match is a class string
containing "name", or containing "product" later followed by "title"; for
scrape_luxior an `a` element carrying the exact class "product-item-link" —
and the designation defaults to the literal "N/A" when no element
matches. -/
theorem c8_designation_selector (reference : String) (docL docA : List Tag)
    (cl ca : Tag) (f : String → FetchResult)
    (hfl : f (luxiorSearchURL reference) = .resp 200 docL)
    (hfa : f (ami3fSearchURL reference) = .resp 200 docA)
    (hcl : luxiorContainer docL = some cl)
    (hca : ami3fContainer docA = some ca) :
    (scrape_luxior reference f).designation = some (luxiorDesignation cl) ∧
    (scrape_ami3f reference f).designation = some (ami3fDesignation ca) ∧
    (findFirst (fun t => t.name == "a" && classHas "product-item-link" t)
        cl.children = none → luxiorDesignation cl = "N/A") ∧
    (∀ e, findFirst (fun t => t.name == "a" && classHas "product-item-link" t)
        cl.children = some e → luxiorDesignation cl = pyStrip e.text) ∧
    (findFirst (fun t =>
        (t.name == "h2" || t.name == "h3" || t.name == "a") &&
          classMatches nameClassMatch t) ca.children = none →
      ami3fDesignation ca = "N/A") ∧
    (∀ e, findFirst (fun t =>
        (t.name == "h2" || t.name == "h3" || t.name == "a") &&
          classMatches nameClassMatch t) ca.children = some e →
      ami3fDesignation ca = pyStrip e.text) ∧
    nameClassMatch "product-main-title" = true ∧
    nameClassMatch "name" = true ∧
    nameClassMatch "title" = false ∧
    nameClassMatch "Name" = false ∧
    nameClassMatch "main-title" = false ∧
    classMatches nameClassMatch (Tag.mk "h2" ["product", "main-title"] "" []) = true ∧
    ami3fDesignation (Tag.mk "article" ["product"] ""
      [Tag.mk "h2" ["product", "main-title"] " Spanned " []]) = "Spanned" := by
  refine ⟨?_, ?_, ?_, ?_, ?_, ?_, by decide, by decide, by decide, by decide,
    by decide, by decide, by decide⟩
  · simp [scrape_luxior, hfl, hcl, luxiorExtract]
  · simp [scrape_ami3f, hfa, hca, ami3fExtract]
  · intro h
    simp [luxiorDesignation, h]
  · intro e he
    simp [luxiorDesignation, he]
  · intro h
    simp [ami3fDesignation, h]
  · intro e he
    simp [ami3fDesignation, he]

/-- C8 witness: concrete pages exercising both the matching and the default
branches of the designation extraction. -/
theorem c8_designation_selector_witness :
    (scrape_luxior "R" (fun _ => .resp 200
        [Tag.mk "div" ["product-item-info"] ""
          [Tag.mk "a" ["product-item-link"] " Widget X " []],
         Tag.mk "article" ["product"] ""
          [Tag.mk "h3" ["product-big-title"] " Widget Z " []]])).designation =
      some (luxiorDesignation (Tag.mk "div" ["product-item-info"] ""
        [Tag.mk "a" ["product-item-link"] " Widget X " []])) ∧
    (scrape_ami3f "R" (fun _ => .resp 200
        [Tag.mk "div" ["product-item-info"] ""
          [Tag.mk "a" ["product-item-link"] " Widget X " []],
         Tag.mk "article" ["product"] ""
          [Tag.mk "h3" ["product-big-title"] " Widget Z " []]])).designation =
      some (ami3fDesignation (Tag.mk "article" ["product"] ""
        [Tag.mk "h3" ["product-big-title"] " Widget Z " []])) ∧
    luxiorDesignation (Tag.mk "div" ["product-item-info"] ""
        [Tag.mk "a" ["product-item-link"] " Widget X " []]) =
      pyStrip (Tag.mk "a" ["product-item-link"] " Widget X " []).text ∧
    ami3fDesignation (Tag.mk "article" ["product"] ""
        [Tag.mk "h3" ["product-big-title"] " Widget Z " []]) =
      pyStrip (Tag.mk "h3" ["product-big-title"] " Widget Z " []).text ∧
    nameClassMatch "title" = false :=
  ⟨(c8_designation_selector "R"
      [Tag.mk "div" ["product-item-info"] ""
        [Tag.mk "a" ["product-item-link"] " Widget X " []],
       Tag.mk "article" ["product"] ""
        [Tag.mk "h3" ["product-big-title"] " Widget Z " []]]
      [Tag.mk "div" ["product-item-info"] ""
        [Tag.mk "a" ["product-item-link"] " Widget X " []],
       Tag.mk "article" ["product"] ""
        [Tag.mk "h3" ["product-big-title"] " Widget Z " []]]
      (Tag.mk "div" ["product-item-info"] ""
        [Tag.mk "a" ["product-item-link"] " Widget X " []])
      (Tag.mk "article" ["product"] ""
        [Tag.mk "h3" ["product-big-title"] " Widget Z " []])
      (fun _ => .resp 200
        [Tag.mk "div" ["product-item-info"] ""
          [Tag.mk "a" ["product-item-link"] " Widget X " []],
         Tag.mk "article" ["product"] ""
          [Tag.mk "h3" ["product-big-title"] " Widget Z " []]])
      rfl rfl rfl rfl).1,
   (c8_designation_selector "R"
      [Tag.mk "div" ["product-item-info"] ""
        [Tag.mk "a" ["product-item-link"] " Widget X " []],
       Tag.mk "article" ["product"] ""
        [Tag.mk "h3" ["product-big-title"] " Widget Z " []]]
      [Tag.mk "div" ["product-item-info"] ""
        [Tag.mk "a" ["product-item-link"] " Widget X " []],
       Tag.mk "article" ["product"] ""
        [Tag.mk "h3" ["product-big-title"] " Widget Z " []]]
      (Tag.mk "div" ["product-item-info"] ""
        [Tag.mk "a" ["product-item-link"] " Widget X " []])
      (Tag.mk "article" ["product"] ""
        [Tag.mk "h3" ["product-big-title"] " Widget Z " []])
      (fun _ => .resp 200
        [Tag.mk "div" ["product-item-info"] ""
          [Tag.mk "a" ["product-item-link"] " Widget X " []],
         Tag.mk "article" ["product"] ""
          [Tag.mk "h3" ["product-big-title"] " Widget Z " []]])
      rfl rfl rfl rfl).2.1,
   (c8_designation_selector "R"
      [Tag.mk "div" ["product-item-info"] ""
        [Tag.mk "a" ["product-item-link"] " Widget X " []],
       Tag.mk "article" ["product"] ""
        [Tag.mk "h3" ["product-big-title"] " Widget Z " []]]
      [Tag.mk "div" ["product-item-info"] ""
        [Tag.mk "a" ["product-item-link"] " Widget X " []],
       Tag.mk "article" ["product"] ""
        [Tag.mk "h3" ["product-big-title"] " Widget Z " []]]
      (Tag.mk "div" ["product-item-info"] ""
        [Tag.mk "a" ["product-item-link"] " Widget X " []])
      (Tag.mk "article" ["product"] ""
        [Tag.mk "h3" ["product-big-title"] " Widget Z " []])
      (fun _ => .resp 200
        [Tag.mk "div" ["product-item-info"] ""
          [Tag.mk "a" ["product-item-link"] " Widget X " []],
         Tag.mk "article" ["product"] ""
          [Tag.mk "h3" ["product-big-title"] " Widget Z " []]])
      rfl rfl rfl rfl).2.2.2.1
     (Tag.mk "a" ["product-item-link"] " Widget X " []) rfl,
   (c8_designation_selector "R"
      [Tag.mk "div" ["product-item-info"] ""
        [Tag.mk "a" ["product-item-link"] " Widget X " []],
       Tag.mk "article" ["product"] ""
        [Tag.mk "h3" ["product-big-title"] " Widget Z " []]]
      [Tag.mk "div" ["product-item-info"] ""
        [Tag.mk "a" ["product-item-link"] " Widget X " []],
       Tag.mk "article" ["product"] ""
        [Tag.mk "h3" ["product-big-title"] " Widget Z " []]]
      (Tag.mk "div" ["product-item-info"] ""
        [Tag.mk "a" ["product-item-link"] " Widget X " []])
      (Tag.mk "article" ["product"] ""
        [Tag.mk "h3" ["product-big-title"] " Widget Z " []])
      (fun _ => .resp 200
        [Tag.mk "div" ["product-item-info"] ""
          [Tag.mk "a" ["product-item-link"] " Widget X " []],
         Tag.mk "article" ["product"] ""
          [Tag.mk "h3" ["product-big-title"] " Widget Z " []]])
      rfl rfl rfl rfl).2.2.2.2.2.1
     (Tag.mk "h3" ["product-big-title"] " Widget Z " []) rfl,
   (c8_designation_selector "R"
      [Tag.mk "div" ["product-item-info"] ""
        [Tag.mk "a" ["product-item-link"] " Widget X " []],
       Tag.mk "article" ["product"] ""
        [Tag.mk "h3" ["product-big-title"] " Widget Z " []]]
      [Tag.mk "div" ["product-item-info"] ""
        [Tag.mk "a" ["product-item-link"] " Widget X " []],
       Tag.mk "article" ["product"] ""
        [Tag.mk "h3" ["product-big-title"] " Widget Z " []]]
      (Tag.mk "div" ["product-item-info"] ""
        [Tag.mk "a" ["product-item-link"] " Widget X " []])
      (Tag.mk "article" ["product"] ""
        [Tag.mk "h3" ["product-big-title"] " Widget Z " []])
      (fun _ => .resp 200
        [Tag.mk "div" ["product-item-info"] ""
          [Tag.mk "a" ["product-item-link"] " Widget X " []],
         Tag.mk "article" ["product"] ""
          [Tag.mk "h3" ["product-big-title"] " Widget Z " []]])
      rfl rfl rfl rfl).2.2.2.2.2.2.2.2.1⟩

/-- Helper: scrape_luxior echoes its reference and names its supplier on every
path. -/
theorem scrape_luxior_fields (reference : String) (f : String → FetchResult) :
    (scrape_luxior reference f).reference = reference ∧
    (scrape_luxior reference f).fournisseur = "luxior" := by
  unfold scrape_luxior
  split
  · exact ⟨rfl, rfl⟩
  · exact ⟨rfl, rfl⟩
  · split
    · exact ⟨rfl, rfl⟩
    · split
      · exact ⟨rfl, rfl⟩
      · exact ⟨rfl, rfl⟩

/-- Helper: scrape_ami3f echoes its reference and names its supplier on every
path. -/
theorem scrape_ami3f_fields (reference : String) (f : String → FetchResult) :
    (scrape_ami3f reference f).reference = reference ∧
    (scrape_ami3f reference f).fournisseur = "ami3f" := by
  unfold scrape_ami3f
  split
  · exact ⟨rfl, rfl⟩
  · exact ⟨rfl, rfl⟩
  · split
    · exact ⟨rfl, rfl⟩
    · split
      · exact ⟨rfl, rfl⟩
      · exact ⟨rfl, rfl⟩

/-- C9: every record either adapter can return keeps the payload exclusive:
an error record has price, designation and availability all absent, and a
success record (designation populated) has no error. -/
theorem c9_payload_exclusivity (reference : String) (f : String → FetchResult) :
    PayloadExclusive (scrape_luxior reference f) ∧
    PayloadExclusive (scrape_ami3f reference f) := by
  constructor
  · unfold scrape_luxior
    split
    · exact ⟨Or.inr ⟨rfl, rfl, rfl⟩, Or.inl rfl⟩
    · exact ⟨Or.inr ⟨rfl, rfl, rfl⟩, Or.inl rfl⟩
    · split
      · exact ⟨Or.inr ⟨rfl, rfl, rfl⟩, Or.inl rfl⟩
      · split
        · exact ⟨Or.inr ⟨rfl, rfl, rfl⟩, Or.inl rfl⟩
        · exact ⟨Or.inl rfl, Or.inr rfl⟩
  · unfold scrape_ami3f
    split
    · exact ⟨Or.inr ⟨rfl, rfl, rfl⟩, Or.inl rfl⟩
    · exact ⟨Or.inr ⟨rfl, rfl, rfl⟩, Or.inl rfl⟩
    · split
      · exact ⟨Or.inr ⟨rfl, rfl, rfl⟩, Or.inl rfl⟩
      · split
        · exact ⟨Or.inr ⟨rfl, rfl, rfl⟩, Or.inl rfl⟩
        · exact ⟨Or.inl rfl, Or.inr rfl⟩

/-- C10: along every path each adapter echoes the input reference unchanged
and sets its own supplier name, and any record the dispatcher returns keeps
the request reference and one of the two supplier names. -/
theorem c10_reference_supplier_echo (reference : String) (f : String → FetchResult)
    (p : ProduitRequest) :
    (scrape_luxior reference f).reference = reference ∧
    (scrape_luxior reference f).fournisseur = "luxior" ∧
    (scrape_ami3f reference f).reference = reference ∧
    (scrape_ami3f reference f).fournisseur = "ami3f" ∧
    (∀ r, recherche_produit p f = .ok r →
      r.reference = p.reference ∧
        (r.fournisseur = "luxior" ∨ r.fournisseur = "ami3f")) := by
  refine ⟨(scrape_luxior_fields reference f).1, (scrape_luxior_fields reference f).2,
    (scrape_ami3f_fields reference f).1, (scrape_ami3f_fields reference f).2, ?_⟩
  intro r hr
  simp only [recherche_produit] at hr
  split at hr
  · exact absurd hr (by simp)
  · split at hr
    · injection hr with h
      rw [← h]
      exact ⟨(scrape_luxior_fields p.reference f).1,
        Or.inl (scrape_luxior_fields p.reference f).2⟩
    · split at hr
      · injection hr with h
        rw [← h]
        exact ⟨(scrape_ami3f_fields p.reference f).1,
          Or.inr (scrape_ami3f_fields p.reference f).2⟩
      · exact absurd hr (by simp)

/-- C10 witness: both adapters and a dispatched request echo the concrete
reference and supplier. -/
theorem c10_reference_supplier_echo_witness :
    (scrape_luxior "R" (fun _ => .timeout)).reference = "R" ∧
    (scrape_luxior "R" (fun _ => .timeout)).fournisseur = "luxior" ∧
    (scrape_ami3f "R" (fun _ => .timeout)).reference = "R" ∧
    (scrape_ami3f "R" (fun _ => .timeout)).fournisseur = "ami3f" ∧
    ((scrape_luxior "R" (fun _ => .timeout)).reference = "R" ∧
      ((scrape_luxior "R" (fun _ => .timeout)).fournisseur = "luxior" ∨
        (scrape_luxior "R" (fun _ => .timeout)).fournisseur = "ami3f")) :=
  ⟨(c10_reference_supplier_echo "R" (fun _ => .timeout) ⟨"R", "luxior"⟩).1,
   (c10_reference_supplier_echo "R" (fun _ => .timeout) ⟨"R", "luxior"⟩).2.1,
   (c10_reference_supplier_echo "R" (fun _ => .timeout) ⟨"R", "luxior"⟩).2.2.1,
   (c10_reference_supplier_echo "R" (fun _ => .timeout) ⟨"R", "luxior"⟩).2.2.2.1,
   (c10_reference_supplier_echo "R" (fun _ => .timeout) ⟨"R", "luxior"⟩).2.2.2.2
     (scrape_luxior "R" (fun _ => .timeout)) rfl⟩

end Tarificateur
